import Mathlib

/-!
Verification of the serial command/telemetry engine of the Waterflow GUI
(`src/GUI.py`).  The Python code is shallowly embedded: pure helpers become
Lean functions, the stateful GUI/worker methods become explicit
state-passing functions that also return the list of externally visible
events (serial writes, signal emissions, error dialogs, sleeps), and the
fallible paths (exceptions raised by `pyserial`, `str.decode`, tuple
unpacking) become `Except` results.  Machine-level concerns (Qt event loop,
real time) are abstracted into explicit oracles: the byte stream offered by
the transport, the success of each non-blocking lock acquisition, and the
value of the `program` flag of the worker at each loop iteration.
-/

instance {ε α : Type} [DecidableEq ε] [DecidableEq α] : DecidableEq (Except ε α) := fun
  | .error e, .error f =>
    if h : e = f then .isTrue (by rw [h]) else .isFalse (fun hh => h (Except.error.inj hh))
  | .error _, .ok _ => .isFalse (fun hh => Except.noConfusion hh)
  | .ok _, .error _ => .isFalse (fun hh => Except.noConfusion hh)
  | .ok a, .ok b =>
    if h : a = b then .isTrue (by rw [h]) else .isFalse (fun hh => h (Except.ok.inj hh))

/-- Python exception classes that the embedded code can raise. -/
inductive PyErr where
  | serialException
  | unicodeDecodeError
  | valueError
  deriving DecidableEq, Repr

/-- Externally visible actions of the engine, recorded in order. -/
inductive Event where
  /-- `serial.Serial.open()` called implicitly on a closed connection. -/
  | openConn
  /-- A successful `connection.write` of the encoded message. -/
  | write (msg : String)
  /-- A `time.sleep` of the given number of milliseconds. -/
  | sleepMs (ms : Nat)
  /-- The background loop called `readEolLine` on the connection. -/
  | readAttempt
  /-- `self.msg.emit(received)` from the worker loop. -/
  | emitMsg (s : String)
  /-- `self.error.emit()` from the worker loop. -/
  | emitError
  /-- `self.cleanup.emit()` on worker loop exit. -/
  | emitCleanup
  /-- `createMessageBox(ERROR, msg)`: a user-facing rejection dialog. -/
  | errorBox (msg : String)
  deriving DecidableEq, Repr

-- SETTINGS constants of GUI.py, kept under their source names.

/-- `PT_DATA_FLAG = "d"` (GUI.py). -/
def PT_DATA_FLAG : String := "d"

/-- `PRESSURE_SEP = ", "` (GUI.py). -/
def PRESSURE_SEP : String := ", "

/-- `VALVE_TAG = "Toggle PIN"` (GUI.py). -/
def VALVE_TAG : String := "Toggle PIN"

/-- `VALVE_SEP = " "` (GUI.py). -/
def VALVE_SEP : String := " "

/-- `PIN = "PIN"` (GUI.py). -/
def PIN : String := "PIN"

/-- `PRESSURE = "PRESS"` (GUI.py). -/
def PRESSURE : String := "PRESS"

-- Python string primitives used by GUI.py.

/-- Python `sub in s`: substring containment. -/
def pyIn (sub s : String) : Bool :=
  decide (sub.toList <:+: s.toList)

/-- Python `s.strip(chars)`: drop leading and trailing characters that
belong to the character set `chars` (not the literal prefix/suffix). -/
def pyStrip (s chars : String) : String :=
  let cs := chars.toList
  String.mk ((((s.toList.dropWhile (· ∈ cs)).reverse.dropWhile (· ∈ cs)).reverse))

/-- Helper for `pySplit`: scans the characters left to right, cutting at
each non-overlapping occurrence of the (non-empty) separator.  The fuel is
an upper bound on the number of scanned characters, so with fuel larger
than the input length the exhaustion branch is unreachable. -/
def pySplitAux (sep : List Char) : Nat → List Char → List Char → List (List Char)
  | _, [], cur => [cur]
  | 0, cs, cur => [cur ++ cs]
  | fuel + 1, c :: cs, cur =>
    if sep.isPrefixOf (c :: cs) then
      cur :: pySplitAux sep fuel ((c :: cs).drop sep.length) []
    else
      pySplitAux sep fuel cs (cur ++ [c])

/-- Python `s.split(sep)` for a non-empty separator: splits on each
non-overlapping occurrence, keeping empty fields. -/
def pySplit (s sep : String) : List String :=
  (pySplitAux sep.toList (s.toList.length + 1) s.toList []).map String.mk

/-- Python `len(set(p)) < len(p)`: the duplicate-pin test used by
`presetRun` and `sendSpecificToggle`. -/
def pyHasDup (s : String) : Bool :=
  s.toList.dedup.length < s.toList.length

/-- `WaterflowGUI.parseData` (GUI.py:593-612).  The tuple unpacking
`pin, value = data.strip(VALVE_TAG).split(VALVE_SEP)` raises `ValueError`
unless the split yields exactly two fields, hence the `Except`. -/
def parseData (data : String) : Except PyErr (List (String × String)) :=
  if pyIn VALVE_TAG data then
    match pySplit (pyStrip data VALVE_TAG) VALVE_SEP with
    | [pin, value] => .ok [(PIN ++ pin, value)]
    | _ => .error .valueError
  else if pyIn PRESSURE_SEP data then
    .ok (((pySplit data PRESSURE_SEP).enum).map
      (fun iv => (PRESSURE ++ toString (iv.1 + 1), iv.2)))
  else
    .ok []

/-- Digits-to-number accumulator for `parsePyFloat`. -/
def digitsToNat (cs : List Char) : Nat :=
  cs.foldl (fun a c => a * 10 + (c.toNat - 48)) 0

/-- A parsed decimal literal, kept exact: the denoted number is
`mantissa / 10 ^ shift`.  This representation is used instead of `ℚ` so
that every state of the preset machine is kernel-computable. -/
structure PyDecimal where
  mantissa : Int
  shift : Nat
  deriving DecidableEq, Repr

/-- The rational number a `PyDecimal` denotes. -/
def PyDecimal.toRat (d : PyDecimal) : ℚ :=
  (d.mantissa : ℚ) / (10 : ℚ) ^ d.shift

/-- Models Python `float(text)` on plain decimal literals (optional
surrounding spaces, optional sign, digits with at most one point; at least
one digit overall).  Exponents and the special spellings inf/nan are not
used by the operators of the GUI and are not modelled.  The value is exact,
which agrees with `float` on the short literals the claims use. -/
def parsePyFloat (s : String) : Option PyDecimal :=
  let cs := ((s.toList.dropWhile (· = ' ')).reverse.dropWhile (· = ' ')).reverse
  let signAndRest : Int × List Char :=
    match cs with
    | '-' :: rest => (-1, rest)
    | '+' :: rest => (1, rest)
    | _ => (1, cs)
  let sign := signAndRest.1
  let body := signAndRest.2
  match pySplit (String.mk body) "." with
  | [intPart] =>
    if intPart.toList ≠ [] ∧ intPart.toList.all (·.isDigit) then
      some ⟨sign * digitsToNat intPart.toList, 0⟩
    else none
  | [intPart, fracPart] =>
    if (intPart.toList ≠ [] ∨ fracPart.toList ≠ [])
        ∧ intPart.toList.all (·.isDigit) ∧ fracPart.toList.all (·.isDigit) then
      some ⟨sign * digitsToNat (intPart.toList ++ fracPart.toList),
        fracPart.toList.length⟩
    else none
  | _ => none

-- SerialComm (GUI.py:122-181).  The transport is abstracted as oracles:
-- `isOpen` is the `connection.is_open` flag at call time, a byte stream is
-- a list of `read(1)` outcomes (`some b` a byte, `none` a timeout), and
-- write/readall outcomes say whether pyserial raised.

/-- Outcome of `connection.readall()` inside `receiveMessage`: either the
decoded data or a raised `SerialException`. -/
inductive ReadAllResult where
  | ok (data : String)
  | exn
  deriving DecidableEq, Repr

/-- `SerialComm.receiveMessage` (GUI.py:136-146): implicitly opens a closed
connection, then returns the drained data; a `SerialException` mid-read is
caught with `pass` and the empty string is returned. -/
def receiveMessage (isOpen : Bool) (r : ReadAllResult) : String × List Event :=
  let openEvs : List Event := if isOpen then [] else [Event.openConn]
  match r with
  | .ok data => (data, openEvs)
  | .exn => ("", openEvs)

/-- Byte-level core of `SerialComm.readEolLine` (GUI.py:148-166): reads one
byte at a time, appending to `acc`; stops at the first line-feed byte
(which is kept in the buffer) or at the first timeout. -/
def readEolBytesAux (acc : List Nat) : List (Option Nat) → List Nat
  | [] => acc
  | none :: _ => acc
  | some b :: rest =>
    if b = 10 then acc ++ [b]
    else readEolBytesAux (acc ++ [b]) rest

/-- The bytes accumulated by `readEolLine` from a given stream. -/
def readEolBytes (stream : List (Option Nat)) : List Nat :=
  readEolBytesAux [] stream

/-- Python `bytes.decode("ascii")`: raises `UnicodeDecodeError` on any byte
outside the 7-bit range. -/
def decodeAscii (bs : List Nat) : Except PyErr String :=
  if bs.all (· < 128) then .ok (String.mk (bs.map Char.ofNat))
  else .error .unicodeDecodeError

/-- `SerialComm.readEolLine` (GUI.py:148-166).  It performs no implicit
open: `connection.read` on a closed port raises a `SerialException`
(pyserial `PortNotOpenError`), which the method does not catch. -/
def readEolLine (isOpen : Bool) (stream : List (Option Nat)) : Except PyErr String :=
  if isOpen then decodeAscii (readEolBytes stream)
  else .error .serialException

/-- `SerialComm.sendMessage` (GUI.py:168-177): implicitly opens a closed
connection, writes, sleeps 2 ms and returns `True`; a `SerialException`
raised by the write is converted to the return value `False` (skipping the
sleep). -/
def sendMessage (isOpen : Bool) (writeOk : Bool) (message : String) : Bool × List Event :=
  let openEvs : List Event := if isOpen then [] else [Event.openConn]
  if writeOk then (true, openEvs ++ [Event.write message, Event.sleepMs 2])
  else (false, openEvs)

-- SerialWorker (GUI.py:184-252).

/-- Outcome of one `readEolLine` call as seen by the worker loop: a decoded
line, or a raised `SerialException`/`UnicodeDecodeError`. -/
inductive ReadResult where
  | line (s : String)
  | fault
  deriving DecidableEq, Repr

/-- Oracle input for one iteration of `SerialWorker.run`: the value of the
`program` flag at the `while` test, whether `mutex.tryLock()` succeeds, and
what the read returns if one happens. -/
structure IterIn where
  program : Bool
  lockOk : Bool
  read : ReadResult
  deriving DecidableEq, Repr

/-- Result of running `SerialWorker.run` against a finite oracle schedule:
the events emitted, the final `error` flag, and whether the `while` loop
exited (reaching the `cleanup` emission).  An exhausted schedule with the
loop still live leaves `exited = false`. -/
structure RunOut where
  events : List Event
  errFlag : Bool
  exited : Bool
  deriving DecidableEq, Repr

/-- `SerialWorker.run` (GUI.py:213-236), one oracle entry per iteration of
the `while self.program` loop.  After a fault the `error` flag suppresses
the whole iteration body, so the loop spins without reading; it exits (and
emits `cleanup`) only when the `program` flag is observed false. -/
def runWorker (err : Bool) : List IterIn → RunOut
  | [] => ⟨[], err, false⟩
  | i :: rest =>
    if i.program = false then ⟨[Event.emitCleanup], err, true⟩
    else if err then runWorker err rest
    else if i.lockOk = false then runWorker err rest
    else
      match i.read with
      | .fault =>
        let r := runWorker true rest
        ⟨Event.readAttempt :: Event.emitError :: r.events, r.errFlag, r.exited⟩
      | .line s =>
        let r := runWorker err rest
        if s.isEmpty then ⟨Event.readAttempt :: r.events, r.errFlag, r.exited⟩
        else ⟨Event.readAttempt :: Event.emitMsg s :: r.events, r.errFlag, r.exited⟩

/-- `SerialWorker.setPins` (GUI.py:205-211): the stored pin set is the new
pins suffixed with the telemetry-request flag. -/
def setPins (newPins : String) : String :=
  newPins ++ PT_DATA_FLAG

/-- The message built by `SerialWorker.sendToggle` (GUI.py:238-252):
`pins + "\n"` if the optional argument is truthy (a non-empty string),
otherwise the stored pins.  Python truthiness makes an explicit empty
string fall back to the stored pins. -/
def sendToggleMsg (storedPins : String) (pins : Option String) : String :=
  match pins with
  | some p => if p.isEmpty then storedPins ++ "\n" else p ++ "\n"
  | none => storedPins ++ "\n"

-- WaterflowGUI preset state machine (GUI.py:429-477).

/-- The engine-relevant state of `WaterflowGUI`: the `inPreset` flag, the
stored pins of the worker, whether the preset-gated UI affordances are enabled
(`displayAccessPresetToggle`), and the duration of the pending session timer. -/
structure GuiState where
  inPreset : Bool
  workerPins : String
  presetEnabled : Bool
  timer : Option PyDecimal
  deriving DecidableEq, Repr

/-- The state at session start: `Idle`, empty stored pins, affordances
enabled, no timer. -/
def idleState : GuiState :=
  { inPreset := false, workerPins := "", presetEnabled := true, timer := none }

/-- `WaterflowGUI.presetRun` (GUI.py:429-457) with the operator text
fields as arguments.  Validation: the interval must parse as a float and
the pins must have no duplicate character; a failed validation shows an
error box and leaves everything unchanged.  On success the affordances are
disabled, the worker pins are set (with the telemetry flag appended), one
toggle is written, and the session timer is scheduled. -/
def presetRun (st : GuiState) (timeText pinsText : String) : GuiState × List Event :=
  if st.inPreset then (st, [])
  else
    match parsePyFloat timeText with
    | none => (st, [Event.errorBox "Time must be a number."])
    | some seconds =>
      if pyHasDup pinsText then
        (st, [Event.errorBox "Duplicate pin detected - please try again."])
      else
        let newPins := setPins pinsText
        ({ st with
            presetEnabled := false
            workerPins := newPins
            inPreset := true
            timer := some seconds },
         [Event.write (sendToggleMsg newPins none)])

/-- `WaterflowGUI.endPreset` (GUI.py:459-466): only acts when `inPreset`;
writes the closing toggle with the stored pins, cancels the timer, clears
`inPreset` and re-enables the affordances. -/
def endPreset (st : GuiState) : GuiState × List Event :=
  if st.inPreset then
    ({ st with inPreset := false, timer := none, presetEnabled := true },
     [Event.write (sendToggleMsg st.workerPins none)])
  else (st, [])

/-- `WaterflowGUI.sendSpecificToggle` (GUI.py:468-477): rejects a command
with a duplicate character via an error box, otherwise forwards it to
`sendToggle`. -/
def sendSpecificToggle (st : GuiState) (command : String) : GuiState × List Event :=
  if pyHasDup command then
    (st, [Event.errorBox "Duplicate pin detected - please try again."])
  else
    (st, [Event.write (sendToggleMsg st.workerPins (some command))])

/-- The serial writes among a list of events, in order. -/
def writesOf (evs : List Event) : List String :=
  evs.filterMap (fun e => match e with | .write m => some m | _ => none)

/-- Whether an event is a user-facing rejection dialog. -/
def isUserError : Event → Bool
  | .errorBox _ => true
  | _ => false

/-- The C2 scenario, first half: `presetRun` from the idle state with
interval text `1.0` and pins text `24`. -/
def scenC2Start : GuiState × List Event :=
  presetRun idleState "1.0" "24"

/-- The C2 scenario, second half: the session clock fires, `sendInterrupt`
emits `serialInterrupt`, and the connected slot `endPreset` runs. -/
def scenC2End : GuiState × List Event :=
  endPreset scenC2Start.1

-- Helper lemmas.

theorem readEolBytesAux_append (stream : List (Option Nat)) :
    ∀ acc, readEolBytesAux acc stream = acc ++ readEolBytesAux [] stream := by
  induction stream with
  | nil => intro acc; simp [readEolBytesAux]
  | cons o rest ih =>
    intro acc
    cases o with
    | none => simp [readEolBytesAux]
    | some b =>
      by_cases hb : b = 10
      · simp [readEolBytesAux, hb]
      · simp only [readEolBytesAux, if_neg hb, List.nil_append]
        rw [ih (acc ++ [b]), ih [b]]
        simp

theorem readEolBytes_cons (b : Nat) (rest : List (Option Nat)) :
    readEolBytes (some b :: rest) = if b = 10 then [10] else b :: readEolBytes rest := by
  by_cases hb : b = 10
  · simp [readEolBytes, readEolBytesAux, hb]
  · simp only [readEolBytes, readEolBytesAux, if_neg hb, List.nil_append]
    rw [readEolBytesAux_append rest [b]]
    simp

theorem readEolBytes_no_inner_delim (stream : List (Option Nat)) :
    ∀ b ∈ (readEolBytes stream).dropLast, b ≠ 10 := by
  induction stream with
  | nil => simp [readEolBytes, readEolBytesAux]
  | cons o rest ih =>
    cases o with
    | none => simp [readEolBytes, readEolBytesAux]
    | some b =>
      rw [readEolBytes_cons]
      by_cases hb : b = 10
      · simp [hb]
      · rw [if_neg hb]
        intro x hx
        cases hl : readEolBytes rest with
        | nil => rw [hl] at hx; simp at hx
        | cons y ys =>
          rw [hl] at hx
          have hx2 : x ∈ b :: (y :: ys).dropLast := hx
          rcases List.mem_cons.mp hx2 with hxb | hxtail
          · rw [hxb]; exact hb
          · exact ih x (by rw [hl]; exact hxtail)

theorem getLast_of_no_inner (l : List Nat) (hinner : ∀ b ∈ l.dropLast, b ≠ 10)
    (hmem : (10 : Nat) ∈ l) : l.getLast? = some 10 := by
  have hne : l ≠ [] := by rintro rfl; simp at hmem
  have hsplit := List.dropLast_append_getLast hne
  rw [← hsplit] at hmem
  rcases List.mem_append.mp hmem with hin | hlast
  · exact absurd rfl (hinner 10 hin)
  · have h10 : l.getLast hne = 10 := (List.mem_singleton.mp hlast).symm
    rw [List.getLast?_eq_getLast l hne, h10]

theorem readEolBytes_eq_nil_iff (stream : List (Option Nat)) :
    readEolBytes stream = [] ↔ stream = [] ∨ stream.head? = some none := by
  cases stream with
  | nil => simp [readEolBytes, readEolBytesAux]
  | cons o rest =>
    cases o with
    | none => simp [readEolBytes, readEolBytesAux]
    | some b =>
      rw [readEolBytes_cons]
      by_cases hb : b = 10 <;> simp [hb]

theorem runWorker_err_eq (rest : List IterIn) :
    runWorker true rest
      = ⟨if rest.any (fun i => !i.program) then [Event.emitCleanup] else [],
         true, rest.any (fun i => !i.program)⟩ := by
  induction rest with
  | nil => rfl
  | cons i rest ih =>
    cases hp : i.program
    · simp [runWorker, hp]
    · simp [runWorker, hp, ih]

-- Claim theorems.

/-- Claim C1 (amended).  When `Connection.readLine` raises inside the
background read loop, the worker emits the engine-error signal once and
performs no further reads or message emissions; however the loop does not
terminate on its own: it keeps iterating idly until the `program` flag is
observed false (cleared externally by the error handler closing the
window), and only then does it exit and emit the cleanup signal. -/
theorem c1_fault_stops_reads_until_flag_cleared (rest : List IterIn) :
    runWorker false ({ program := true, lockOk := true, read := ReadResult.fault } :: rest)
      = ⟨Event.readAttempt :: Event.emitError ::
          (if rest.any (fun i => !i.program) then [Event.emitCleanup] else []),
         true, rest.any (fun i => !i.program)⟩ := by
  simp [runWorker, runWorker_err_eq]

/-- Claim C1 counterexample.  With a fault at the first iteration and the
`program` flag still set, the loop performs a further iteration without
exiting: no cleanup signal is emitted and the loop is still live,
contradicting the claim that the loop terminates (emitting the cleanup
signal) with no further iterations after a fault. -/
theorem c1_counterexample :
    (runWorker false [⟨true, true, ReadResult.fault⟩, ⟨true, true, ReadResult.line "x"⟩]).exited
        = false
    ∧ Event.emitCleanup
        ∉ (runWorker false [⟨true, true, ReadResult.fault⟩,
            ⟨true, true, ReadResult.line "x"⟩]).events := by
  decide

/-- Claim C2 (amended).  Starting a preset with pins `24` and duration text
`1.0` on a connection that echoes nothing issues exactly two toggle writes,
one at start and one at the timer-driven end — but each write is
`24d\n` (the pins suffixed with the telemetry-request flag `PT_DATA_FLAG`),
not `24\n`; afterwards the engine is idle again, the timer is cancelled and
the preset-gated affordances are re-enabled.  The scheduled duration
denotes exactly 1 second. -/
theorem c2_preset_scenario :
    writesOf (scenC2Start.2 ++ scenC2End.2) = ["24d\n", "24d\n"]
    ∧ scenC2Start.1.inPreset = true
    ∧ scenC2Start.1.presetEnabled = false
    ∧ scenC2Start.1.timer = some ⟨10, 1⟩
    ∧ PyDecimal.toRat ⟨10, 1⟩ = 1
    ∧ scenC2End.1 = { idleState with workerPins := "24d" } := by
  refine ⟨by decide, by decide, by decide, by decide, ?_, by decide⟩
  norm_num [PyDecimal.toRat]

/-- Claim C2 counterexample.  The two toggle writes of the scenario are not
the message `24\n` claimed: `setPins` appends the telemetry-request flag,
so both writes are `24d\n`. -/
theorem c2_counterexample :
    writesOf (scenC2Start.2 ++ scenC2End.2) ≠ ["24\n", "24\n"] := by
  decide

/-- Claim C3 (amended).  `readEolLine` accumulates bytes up to and
including the first line-feed: the delimiter is retained, never stripped,
but it can only occur as the final byte of the returned line; the empty
result arises exactly when a timeout occurs with zero bytes obtained. -/
theorem c3_readLine_delimiter (stream : List (Option Nat)) :
    (∀ b ∈ (readEolBytes stream).dropLast, b ≠ 10)
    ∧ ((10 : Nat) ∈ readEolBytes stream → (readEolBytes stream).getLast? = some 10)
    ∧ (readEolBytes stream = [] ↔ stream = [] ∨ stream.head? = some none) :=
  ⟨readEolBytes_no_inner_delim stream,
   getLast_of_no_inner _ (readEolBytes_no_inner_delim stream),
   readEolBytes_eq_nil_iff stream⟩

/-- Claim C3 witness: on the concrete stream `a` then line-feed, the
non-final byte 97 is not the delimiter. -/
theorem c3_readLine_delimiter_witness :
    (97 : Nat) ∈ (readEolBytes [some 97, some 10]).dropLast ∧ (97 : Nat) ≠ 10 :=
  ⟨by decide, (c3_readLine_delimiter [some 97, some 10]).1 97 (by decide)⟩

/-- Claim C3 counterexample.  On the stream delivering `a` then a
line-feed, `readEolLine` returns the string `a` followed by the line-feed:
the delimiter is not stripped and the returned content contains it,
contradicting the claim. -/
theorem c3_counterexample :
    readEolLine true [some 97, some 10] = Except.ok "a\n"
    ∧ '\n' ∈ "a\n".toList := by
  constructor
  · decide
  · decide

/-- Claim C4 (amended).  Write and bulk read implicitly open a closed
connection, but line read does not: it raises a `SerialException` on a
closed port.  A mid-operation failure is reported by write (returning
false) and by line read (the exception propagates), but bulk read catches
the exception with `pass` and returns the empty string — indistinguishable
from a successful drain with no data. -/
theorem c4_connection_failure_reporting :
    (∀ r, (receiveMessage false r).2 = [Event.openConn])
    ∧ (∀ writeOk msg, (sendMessage false writeOk msg).2.head? = some Event.openConn)
    ∧ (∀ msg, sendMessage true false msg = (false, []))
    ∧ (∀ stream, readEolLine false stream = Except.error PyErr.serialException)
    ∧ receiveMessage true ReadAllResult.exn = ("", []) := by
  refine ⟨?_, ?_, ?_, ?_, rfl⟩
  · intro r; cases r <;> rfl
  · intro writeOk msg; cases writeOk <;> rfl
  · intro msg; rfl
  · intro stream; rfl

/-- Claim C4 counterexample.  A `SerialException` raised inside
`receiveMessage` on an open connection is silently swallowed: the call
returns exactly what a successful drain with no buffered data returns, a
normal-looking empty string, contradicting the claim that a mid-operation
I/O failure is never silently swallowed. -/
theorem c4_counterexample :
    receiveMessage true ReadAllResult.exn = receiveMessage true (ReadAllResult.ok "")
    ∧ (receiveMessage true ReadAllResult.exn).1 = "" := by
  exact ⟨rfl, rfl⟩

/-- Claim C5 (amended).  `presetRun` rejects the start as a no-op user
error exactly when the interval text cannot be parsed as a float at all;
the sign is never checked, so any parseable duration — including zero and
negative ones — starts the preset (state change, toggle write, timer
scheduled). -/
theorem c5_duration_validation :
    (∀ st t p, st.inPreset = false → parsePyFloat t = none →
      presetRun st t p = (st, [Event.errorBox "Time must be a number."]))
    ∧ (∀ st t p d, st.inPreset = false → parsePyFloat t = some d →
        pyHasDup p = false →
      (presetRun st t p).1.inPreset = true
      ∧ writesOf (presetRun st t p).2 = [setPins p ++ "\n"]
      ∧ (presetRun st t p).1.timer = some d) := by
  constructor
  · intro st t p h hp
    simp [presetRun, h, hp]
  · intro st t p d h hp hd
    simp [presetRun, h, hp, hd, writesOf, sendToggleMsg, setPins]

/-- Claim C5 witness: the unparseable interval text `abc` is rejected from
the idle state, and the parseable negative interval `-3` starts a preset. -/
theorem c5_duration_validation_witness :
    presetRun idleState "abc" "24" = (idleState, [Event.errorBox "Time must be a number."])
    ∧ (presetRun idleState "-3" "24").1.inPreset = true :=
  ⟨c5_duration_validation.1 idleState "abc" "24" rfl (by decide),
   (c5_duration_validation.2 idleState "-3" "24" ⟨-3, 0⟩ rfl (by decide) (by decide)).1⟩

/-- Claim C5 counterexample.  With duration text `0` — a duration `d ≤ 0` —
the preset is started from idle: the state changes to `PresetRunning`, a
toggle write is issued and a timer of zero seconds is scheduled,
contradicting the claim that every non-positive duration is rejected. -/
theorem c5_counterexample :
    (presetRun idleState "0" "24").1.inPreset = true
    ∧ writesOf (presetRun idleState "0" "24").2 = ["24d\n"]
    ∧ (presetRun idleState "0" "24").1.timer = some ⟨0, 0⟩ := by
  decide

/-- Claim C6 (confirmed).  The telemetry parser satisfies the three
reference examples: a valve-toggle line yields the single pin/value pair, a
pressure line yields the 1-indexed channel pairs in field order, and an
informational line yields the empty list. -/
theorem c6_parser_examples :
    parseData "Toggle PIN3 1" = Except.ok [("PIN3", "1")]
    ∧ parseData "12.5, 13.1, 9.9"
        = Except.ok [("PRESS1", "12.5"), ("PRESS2", "13.1"), ("PRESS3", "9.9")]
    ∧ parseData "hello world" = Except.ok [] := by
  refine ⟨by decide, by decide, by decide⟩

/-- Claim C7 (confirmed).  A pin string with a repeated character is
rejected with a user-error dialog by both `presetRun` (from idle, for every
interval text) and `sendSpecificToggle`: the state is unchanged and no
write reaches the connection. -/
theorem c7_duplicate_pins_rejected :
    (∀ st timeText p, st.inPreset = false → pyHasDup p = true →
      (presetRun st timeText p).1 = st
      ∧ writesOf (presetRun st timeText p).2 = []
      ∧ (presetRun st timeText p).2.all isUserError = true
      ∧ (presetRun st timeText p).2 ≠ [])
    ∧ (∀ st c, pyHasDup c = true →
      sendSpecificToggle st c
        = (st, [Event.errorBox "Duplicate pin detected - please try again."])) := by
  constructor
  · intro st timeText p h hd
    cases hpf : parsePyFloat timeText <;>
      simp [presetRun, h, hpf, hd, writesOf, isUserError]
  · intro st c hd
    simp [sendSpecificToggle, hd]

/-- Claim C7 witness: the duplicated pin string `22` is rejected by both
entry points from the idle state. -/
theorem c7_duplicate_pins_rejected_witness :
    ((presetRun idleState "1.0" "22").1 = idleState
      ∧ writesOf (presetRun idleState "1.0" "22").2 = []
      ∧ (presetRun idleState "1.0" "22").2.all isUserError = true
      ∧ (presetRun idleState "1.0" "22").2 ≠ [])
    ∧ sendSpecificToggle idleState "22"
        = (idleState, [Event.errorBox "Duplicate pin detected - please try again."]) :=
  ⟨c7_duplicate_pins_rejected.1 idleState "1.0" "22" rfl (by decide),
   c7_duplicate_pins_rejected.2 idleState "22" (by decide)⟩

/-- Claim C8 (amended).  `sendMessage` reconnects (opens) first if the
connection was closed, returns the boolean outcome rather than raising on a
transport failure, and enforces the 2 ms settling delay as its last action
before returning true on a successful write; on a failed write it returns
false immediately, with no settling delay. -/
theorem c8_write_contract (isOpen writeOk : Bool) (msg : String) :
    (sendMessage isOpen writeOk msg).1 = writeOk
    ∧ (isOpen = false → (sendMessage isOpen writeOk msg).2.head? = some Event.openConn)
    ∧ (writeOk = true →
        (sendMessage isOpen writeOk msg).2.getLast? = some (Event.sleepMs 2))
    ∧ (writeOk = false → Event.sleepMs 2 ∉ (sendMessage isOpen writeOk msg).2) := by
  cases isOpen <;> cases writeOk <;> simp [sendMessage]

/-- Claim C8 witness: a successful write on a closed connection opens the
connection first and ends with the settling delay. -/
theorem c8_write_contract_witness :
    (sendMessage false true "1\n").2.head? = some Event.openConn
    ∧ (sendMessage false true "1\n").2.getLast? = some (Event.sleepMs 2) :=
  ⟨(c8_write_contract false true "1\n").2.1 rfl,
   (c8_write_contract false true "1\n").2.2.1 rfl⟩

/-- Claim C8 counterexample.  On a transport failure `sendMessage` returns
false with no settling delay at all, contradicting the claim that the
roughly 2 ms delay is enforced before every return. -/
theorem c8_counterexample :
    (sendMessage true false "24d\n").1 = false
    ∧ Event.sleepMs 2 ∉ (sendMessage true false "24d\n").2 := by
  decide

/-- Claim C9 (confirmed).  `endPreset` is idempotent: from an idle state it
is a no-op, a second consecutive call is always a no-op, and after a preset
start the pair of calls issues exactly the one closing toggle write of the
first call. -/
theorem c9_endPreset_idempotent (st : GuiState) :
    (st.inPreset = false → endPreset st = (st, []))
    ∧ (endPreset st).1.inPreset = false
    ∧ endPreset (endPreset st).1 = ((endPreset st).1, [])
    ∧ (st.inPreset = true → writesOf (endPreset st).2 = [st.workerPins ++ "\n"]) := by
  cases h : st.inPreset <;> simp [endPreset, h, writesOf, sendToggleMsg]

/-- Claim C9 witness: from a running preset on pins `24d`, the first
`endPreset` issues the single closing write and the second is a no-op. -/
theorem c9_endPreset_idempotent_witness :
    writesOf (endPreset ⟨true, "24d", false, some ⟨10, 1⟩⟩).2 = ["24d" ++ "\n"]
    ∧ endPreset (endPreset ⟨true, "24d", false, some ⟨10, 1⟩⟩).1
        = ((endPreset ⟨true, "24d", false, some ⟨10, 1⟩⟩).1, []) :=
  ⟨(c9_endPreset_idempotent ⟨true, "24d", false, some ⟨10, 1⟩⟩).2.2.2 rfl,
   (c9_endPreset_idempotent ⟨true, "24d", false, some ⟨10, 1⟩⟩).2.2.1⟩

/-- Claim C10 (confirmed).  The telemetry parser is not total on
valve-marker lines: the bare marker line raises, a line whose stripped
remainder has three space-separated fields raises, and a value ending in
characters of the marker (`ON`) is truncated (to `O`) because `strip`
removes marker characters from both ends. -/
theorem c10_parser_partiality :
    parseData "Toggle PIN" = Except.error PyErr.valueError
    ∧ parseData "Toggle PIN3 1 extra" = Except.error PyErr.valueError
    ∧ parseData "Toggle PIN3 ON" = Except.ok [("PIN3", "O")] := by
  refine ⟨by decide, by decide, by decide⟩
